import Mathlib

/-!
Verification of the core training-loop abstraction of solo-learn
(`src/solo/methods/base.py`): the `BaseMethod` / `BaseMomentumMethod`
classes.  Real-valued tensor scalars are modelled by rationals; images,
targets and feature tensors are abstract type parameters; the external
backbone factories, optimizer/scheduler classes and evaluation helpers
that live outside the given sources are either abstracted by function
parameters or modelled from the specification (marked as such).
-/

namespace SoloLearn

/-! ### String containment (Python's `in` on str) -/

/-- Does the first character list start with the second? -/
def charsStartWith : List Char → List Char → Bool
  | _, [] => true
  | [], _ :: _ => false
  | a :: as, b :: bs => a == b && charsStartWith as bs

/-- Does the first character list contain the second as a contiguous sublist? -/
def charsContain : List Char → List Char → Bool
  | [], pat => pat.isEmpty
  | s :: rest, pat => charsStartWith (s :: rest) pat || charsContain rest pat

/-- Python's substring test `pat in s`. -/
def strContains (s pat : String) : Bool :=
  charsContain s.data pat.data

/-! ### Backbone registry and `BaseMethod.__init__` (base.py lines 276-466) -/

/-- A constructed backbone network, abstracted to the two attributes
`BaseMethod.__init__` reads from it: `inplanes` (resnet families) and
`num_features` (transformer/pooling families). -/
structure BackboneNet where
  inplanes : Nat
  num_features : Nat
deriving DecidableEq

/-- The keys of `BaseMethod._SUPPORTED_BACKBONES` (base.py lines 276-301). -/
def supportedBackbones : List String :=
  ["resnet18", "resnet50", "wide_resnet50_2", "wide_resnet50_4", "wide_resnet50_8",
   "resnetlarge1", "resnetlarge2",
   "vit_tiny", "vit_small", "vit_base", "vit_large",
   "swin_tiny", "swin_small", "swin_base", "swin_large",
   "poolformer_s12", "poolformer_s24", "poolformer_s36", "poolformer_m36", "poolformer_m48",
   "convnext_tiny", "convnext_small", "convnext_base", "convnext_large"]

/-- Result of calling the registered factory function for `name`.
`resnetlarge1` (base.py line 197) has an empty body (`pass`), so calling it
returns `None`, modelled as `none`.  Every other registered factory builds an
actual network object; those constructions live outside the given sources and
are abstracted by the environment `env`. -/
def applyFactory (env : String → BackboneNet) (name : String) : Option BackboneNet :=
  if name = "resnetlarge1" then none else some (env name)

/-- Errors `BaseMethod.__init__` can raise. -/
inductive InitError where
  /-- `assert backbone in BaseMethod._SUPPORTED_BACKBONES` (line 433) fails. -/
  | unsupportedBackbone (name : String)
  /-- `AttributeError`: reading `.inplanes` / `.num_features` (or assigning
  `.fc`) on the `None` returned by an empty-bodied factory (lines 449-461). -/
  | noneBackboneAttribute
deriving DecidableEq

/-- The hyperparameter record passed to `BaseMethod.__init__`
(base.py lines 303-330), restricted to the fields the constructor reads. -/
structure InitCfg where
  backbone : String
  num_classes : Nat
  max_epochs : Nat
  batch_size : Nat
  optimizer : String
  lars : Bool
  lr : ℚ
  weight_decay : ℚ
  classifier_lr : ℚ
  exclude_bias_n_norm : Bool
  accumulate_grad_batches : Option Nat
  scheduler : String
  min_lr : ℚ
  warmup_start_lr : ℚ
  warmup_epochs : Nat
  num_large_crops : Nat
  num_small_crops : Nat
  eta_lars : ℚ
  grad_clip_lars : Bool
  lr_decay_steps : Option (List Nat)
  knn_eval : Bool
  knn_k : Nat
  out_size : Nat
deriving DecidableEq

/-- The attribute state a successful `BaseMethod.__init__` leaves behind
(the fields the later methods read). -/
structure InitState where
  lr : ℚ
  classifier_lr : ℚ
  min_lr : ℚ
  warmup_start_lr : ℚ
  weight_decay : ℚ
  eta_lars : ℚ
  num_classes : Nat
  max_epochs : Nat
  batch_size : Nat
  warmup_epochs : Nat
  num_large_crops : Nat
  num_small_crops : Nat
  num_crops : Nat
  multicrop : Bool
  knn_k : Nat
  out_size : Nat
  features_dim : Nat
  backbone : BackboneNet
deriving DecidableEq

/-- `BaseMethod.__init__` (base.py lines 387-466): stores the config, computes
`num_crops` and `multicrop`, rescales the four learning-rate fields when
gradient accumulation is truthy (lines 426-431), asserts the backbone name is
registered (line 433), calls the factory, and derives `features_dim`
(`inplanes`, overridden by `out_size` for the "large" variants, for resnets;
`num_features` otherwise). -/
def BaseMethod_init (env : String → BackboneNet) (cfg : InitCfg) :
    Except InitError InitState :=
  -- if accumulating gradient then scale lr (lines 426-431)
  let scaled :=
    match cfg.accumulate_grad_batches with
    | some n =>
      if n ≠ 0 then
        (cfg.lr * n, cfg.classifier_lr * n, cfg.min_lr * n, cfg.warmup_start_lr * n)
      else (cfg.lr, cfg.classifier_lr, cfg.min_lr, cfg.warmup_start_lr)
    | none => (cfg.lr, cfg.classifier_lr, cfg.min_lr, cfg.warmup_start_lr)
  if cfg.backbone ∈ supportedBackbones then
    let backboneOpt := applyFactory env cfg.backbone
    let mk : Nat → BackboneNet → InitState := fun features_dim b =>
      { lr := scaled.1, classifier_lr := scaled.2.1, min_lr := scaled.2.2.1,
        warmup_start_lr := scaled.2.2.2,
        weight_decay := cfg.weight_decay, eta_lars := cfg.eta_lars,
        num_classes := cfg.num_classes, max_epochs := cfg.max_epochs,
        batch_size := cfg.batch_size, warmup_epochs := cfg.warmup_epochs,
        num_large_crops := cfg.num_large_crops, num_small_crops := cfg.num_small_crops,
        num_crops := cfg.num_large_crops + cfg.num_small_crops,
        multicrop := cfg.num_small_crops ≠ 0,
        knn_k := cfg.knn_k, out_size := cfg.out_size,
        features_dim := features_dim, backbone := b }
    if strContains cfg.backbone "resnet" then
      match backboneOpt with
      | none => .error .noneBackboneAttribute    -- `self.backbone.inplanes` on None
      | some b =>
        let features_dim :=
          if strContains cfg.backbone "large" then cfg.out_size else b.inplanes
        .ok (mk features_dim b)
    else
      match backboneOpt with
      | none => .error .noneBackboneAttribute    -- `self.backbone.num_features` on None
      | some b => .ok (mk b.num_features b)
  else .error (.unsupportedBackbone cfg.backbone)

/-! ### `static_lr` and `BaseMethod.configure_optimizers` (base.py lines 265-271, 563-629) -/

/-- A learnable parameter group as produced by `learnable_params`: a dict with a
name, optional per-group `lr` / `weight_decay` overrides, and an optional
`"static_lr"` marker.  The parameters themselves are irrelevant to the
configuration logic and are not modelled. -/
structure ParamGroup where
  name : String
  lr : Option ℚ
  weight_decay : Option ℚ
  static_lr : Bool
deriving DecidableEq

/-- `BaseMethod.learnable_params` (base.py lines 544-561): the backbone group
with default settings and the classifier group with `classifier_lr` and zero
weight decay, in that order. -/
def learnable_params (classifier_lr : ℚ) : List ParamGroup :=
  [{ name := "backbone", lr := none, weight_decay := none, static_lr := false },
   { name := "classifier", lr := some classifier_lr, weight_decay := some 0,
     static_lr := false }]

/-- `static_lr` (base.py lines 265-271): call the scheduler's own `get_lr`,
then overwrite the entry at each given index with the corresponding
replacement value. -/
def static_lr (get_lr : Unit → List ℚ) (param_group_indexes : List Nat)
    (lrs_to_replace : List ℚ) : List ℚ :=
  (param_group_indexes.zip lrs_to_replace).foldl
    (fun lrs p => lrs.set p.1 p.2) (get_lr ())

/-- The indices of groups carrying a truthy `"static_lr"` marker
(base.py lines 571-573; `m.pop("static_lr", False)`). -/
def idxs_no_scheduler (params : List ParamGroup) : List Nat :=
  ((params.enum).filter (fun p => p.2.static_lr)).map (fun p => p.1)

/-- The optimizer object built by `configure_optimizers`, abstracted to what
the configuration logic decides: which class was chosen, the parameter groups
(after the `static_lr` marker was popped), the default lr / weight decay, and
whether the LARS wrapper was applied. -/
structure Optimizer where
  kind : String
  param_groups : List ParamGroup
  lr : ℚ
  weight_decay : ℚ
  lars_wrapped : Bool

/-- The scheduler object, abstracted to which class was chosen and its
`get_lr` function (possibly wrapped by `static_lr`). -/
structure SchedulerState where
  kind : String
  get_lr : Unit → List ℚ

/-- Errors raised by `configure_optimizers`. -/
inductive OptError where
  /-- `ValueError(f"... not in (sgd, adam, adamw)")` (line 583). -/
  | unknownOptimizer (name : String)
  /-- `assert self.optimizer == "sgd", "LARS is only compatible with SGD."` (line 594). -/
  | larsRequiresSgd
  /-- `ValueError(f"... not in (warmup_cosine, cosine, step)")` (line 618). -/
  | unknownScheduler (name : String)
deriving DecidableEq

/-- Return value of `configure_optimizers`: either the bare optimizer (when
`scheduler == "none"`, line 603) or the `[optimizer], [scheduler]` pair. -/
inductive ConfigureResult where
  | bare (opt : Optimizer)
  | withScheduler (opt : Optimizer) (sched : SchedulerState)

/-- The configuration fields `configure_optimizers` reads. -/
structure OptCfg where
  optimizer : String
  lars : Bool
  scheduler : String
  lr : ℚ
  weight_decay : ℚ
deriving DecidableEq

/-- The optimizer-selection ladder (base.py lines 576-591). -/
def selectOptimizer (cfg : OptCfg) (groups : List ParamGroup) :
    Except OptError Optimizer :=
  if cfg.optimizer = "sgd" then
    .ok { kind := "sgd", param_groups := groups, lr := cfg.lr,
          weight_decay := cfg.weight_decay, lars_wrapped := false }
  else if cfg.optimizer = "adam" then
    .ok { kind := "adam", param_groups := groups, lr := cfg.lr,
          weight_decay := cfg.weight_decay, lars_wrapped := false }
  else if cfg.optimizer = "adamw" then
    .ok { kind := "adamw", param_groups := groups, lr := cfg.lr,
          weight_decay := cfg.weight_decay, lars_wrapped := false }
  else .error (.unknownOptimizer cfg.optimizer)

/-- The optional LARS wrapping (base.py lines 593-600), with its
`assert self.optimizer == "sgd"`. -/
def wrapLars (cfg : OptCfg) (opt : Optimizer) : Except OptError Optimizer :=
  if cfg.lars then
    if cfg.optimizer = "sgd" then .ok { opt with lars_wrapped := true }
    else .error .larsRequiresSgd
  else .ok opt

/-- The scheduler-selection ladder and the `static_lr` wrapping
(base.py lines 602-627).  The schedulers themselves are external library
classes; the internal learning-rate computation of the chosen scheduler is
abstracted by `scheduler_get_lr`.  Returns `none` for `scheduler == "none"`
(the bare optimizer is returned, line 603). -/
def buildScheduler (cfg : OptCfg) (idxs : List Nat)
    (scheduler_get_lr : Unit → List ℚ) : Except OptError (Option SchedulerState) :=
  if cfg.scheduler = "none" then .ok none
  else if cfg.scheduler = "warmup_cosine" ∨ cfg.scheduler = "cosine" ∨
      cfg.scheduler = "step" then
    if idxs.isEmpty then .ok (some { kind := cfg.scheduler, get_lr := scheduler_get_lr })
    else
      -- scheduler.get_lr = partial(static_lr, get_lr=scheduler.get_lr,
      --   param_group_indexes=idxs_no_scheduler,
      --   lrs_to_replace=[self.lr] * len(idxs_no_scheduler))  (lines 620-627)
      .ok (some { kind := cfg.scheduler,
                  get_lr := fun _ =>
                    static_lr scheduler_get_lr idxs
                      (List.replicate idxs.length cfg.lr) })
  else .error (.unknownScheduler cfg.scheduler)

/-- `BaseMethod.configure_optimizers` (base.py lines 563-629): pop the
`static_lr` markers recording their indices, select and build the optimizer,
optionally wrap it in LARS, then build the scheduler (or return the bare
optimizer for `"none"`), wrapping its `get_lr` when any group was static. -/
def configure_optimizers (cfg : OptCfg) (params : List ParamGroup)
    (scheduler_get_lr : Unit → List ℚ) : Except OptError ConfigureResult :=
  let idxs := idxs_no_scheduler params
  let groups := params.map (fun p => { p with static_lr := false })
  match selectOptimizer cfg groups with
  | .error e => .error e
  | .ok opt =>
    match wrapLars cfg opt with
    | .error e => .error e
    | .ok opt =>
      match buildScheduler cfg idxs scheduler_get_lr with
      | .error e => .error e
      | .ok none => .ok (.bare opt)
      | .ok (some sched) => .ok (.withScheduler opt sched)

/-! ### Forward/step model (base.py lines 631-774, 898-985)

Images, targets and features are abstract type parameters.  The backbone and
classifier networks are abstracted by functions into abstract features and
logits; scalar results of the external tensor library (cross-entropy values,
accuracy values) are abstracted by rational-valued functions. -/

/-- A logits tensor, abstracted to its class dimension `cols`
(`logits.size(1)` — the classifiers are `nn.Linear(features_dim, num_classes)`
so `cols = num_classes`) and an abstract scalar content `val`. -/
structure Logits where
  cols : Nat
  val : ℚ
deriving DecidableEq

/-- Errors a training/validation step can raise. -/
inductive StepError where
  /-- `RuntimeError` from the top-k selection when some requested k exceeds
  the class dimension. -/
  | topkOutOfRange
  /-- `assert len(X) == self.num_crops` (line 693) fails. -/
  | numCropsAssert
  /-- `IndexError` from `outs[0].keys()` on an empty list of per-crop outputs
  (lines 696, 960; happens when `num_large_crops == 0`). -/
  | emptyOutsIndex
deriving DecidableEq

/-- The state of a `BaseMethod` instance used by the step functions:
crop counts plus the abstracted networks and scalar functions. -/
structure Model (Img Tgt Feat : Type) where
  num_classes : Nat
  num_large_crops : Nat
  num_small_crops : Nat
  /-- the backbone network, as a function from an image batch to features -/
  backbone : Img → Feat
  /-- the online classifier `nn.Linear(features_dim, num_classes)`, abstracted
  to the scalar content of its output logits -/
  classifier : Feat → ℚ
  /-- abstract value of `F.cross_entropy(logits, targets, ignore_index=-1)` -/
  cross_entropy : Logits → Tgt → ℚ
  /-- abstract accuracy value at a given k, as returned by `accuracy_at_k` -/
  accAt : Logits → Tgt → Nat → ℚ

/-- `self.num_crops = self.num_large_crops + self.num_small_crops` (line 418). -/
def Model.num_crops {Img Tgt Feat : Type} (m : Model Img Tgt Feat) : Nat :=
  m.num_large_crops + m.num_small_crops

/-- `self.multicrop = self.num_small_crops != 0` (line 424). -/
def Model.multicrop {Img Tgt Feat : Type} (m : Model Img Tgt Feat) : Bool :=
  m.num_small_crops ≠ 0

/-- Modelled from the spec: `accuracy_at_k` lives in `solo/utils/metrics.py`,
outside the given sources.  Per the spec it computes top-k accuracy by a
top-k selection over the class dimension, and a k exceeding the number of
classes is an error rather than being clamped (clamping, where present, is
done by the caller).  The accuracy values themselves are abstracted by
`accAt`. -/
def accuracy_at_k {Tgt : Type} (accAt : Logits → Tgt → Nat → ℚ) (logits : Logits)
    (targets : Tgt) (top_k : List Nat) : Except StepError (List ℚ) :=
  if top_k.all (fun k => k ≤ logits.cols) then
    .ok (top_k.map (accAt logits targets))
  else .error .topkOutOfRange

/-- Output of `base_forward` (line 636): logits (computed on gradient-detached
features — the detach is a computation-graph concern, not modelled) and
features. -/
structure ForwardOut (Feat : Type) where
  logits : Logits
  feats : Feat
deriving DecidableEq

/-- `BaseMethod.base_forward` (base.py lines 636-651). -/
def base_forward {Img Tgt Feat : Type} (m : Model Img Tgt Feat) (X : Img) :
    ForwardOut Feat :=
  let feats := m.backbone X
  let logits : Logits := { cols := m.num_classes, val := m.classifier feats }
  { logits := logits, feats := feats }

/-- Output of `_base_shared_step` (line 653). -/
structure SharedStepOut (Feat : Type) where
  logits : Logits
  feats : Feat
  loss : ℚ
  acc1 : ℚ
  acc5 : ℚ
deriving DecidableEq

/-- `BaseMethod._base_shared_step` (base.py lines 653-673): forward, cross
entropy, then accuracies with `top_k_max = min(5, logits.size(1))` —
"handle when the number of classes is smaller than 5" (lines 669-671). -/
def base_shared_step {Img Tgt Feat : Type} (m : Model Img Tgt Feat) (X : Img)
    (targets : Tgt) : Except StepError (SharedStepOut Feat) :=
  let out := base_forward m X
  let loss := m.cross_entropy out.logits targets
  -- handle when the number of classes is smaller than 5
  let top_k_max := min 5 out.logits.cols
  match accuracy_at_k m.accAt out.logits targets [1, top_k_max] with
  | .ok [acc1, acc5] =>
    .ok { logits := out.logits, feats := out.feats, loss := loss,
          acc1 := acc1, acc5 := acc5 }
  | .ok _ => .error .topkOutOfRange   -- unreachable: two ks were requested
  | .error e => .error e

/-- A Python list comprehension over a list whose element computations may
raise: the first raised error propagates. -/
def mapExcept {α β : Type} (f : α → Except StepError β) : List α →
    Except StepError (List β)
  | [] => .ok []
  | x :: xs =>
    match f x with
    | .error e => .error e
    | .ok y =>
      match mapExcept f xs with
      | .error e => .error e
      | .ok ys => .ok (y :: ys)

/-- `X = [X] if isinstance(X, torch.Tensor) else X` (line 690): a single image
tensor is normalized into a one-element crop list. -/
def normalizeCrops {Img : Type} : Sum Img (List Img) → List Img
  | .inl x => [x]
  | .inr xs => xs

/-- The dict returned by `BaseMethod.training_step` after the per-key lists
were built and `loss` / `acc1` / `acc5` were replaced by their large-crop
averages (lines 695-704). -/
structure TrainOut (Feat : Type) where
  logits : List Logits
  feats : List Feat
  loss : ℚ
  acc1 : ℚ
  acc5 : ℚ
deriving DecidableEq

/-- `BaseMethod.training_step` (base.py lines 675-722): normalize the crop
list, assert its length equals `num_crops`, run `_base_shared_step` on the
first `num_large_crops` crops only, append backbone features of the small
crops when multicrop is on, and average loss/acc1/acc5 over the large crops.
The metric logging and the k-NN accumulation (lines 706-720) are external
side effects that do not alter the returned dict and are not modelled. -/
def training_step {Img Tgt Feat : Type} (m : Model Img Tgt Feat)
    (batchX : Sum Img (List Img)) (targets : Tgt) :
    Except StepError (TrainOut Feat) :=
  let X := normalizeCrops batchX
  -- check that we received the desired number of crops
  if X.length = m.num_crops then
    match mapExcept (fun x => base_shared_step m x targets)
        (X.take m.num_large_crops) with
    | .error e => .error e
    | .ok outsList =>
      if outsList.isEmpty then .error .emptyOutsIndex   -- outs[0].keys()
      else
        let feats := outsList.map (fun o => o.feats)
        let feats :=
          if m.multicrop then
            feats ++ (X.drop m.num_large_crops).map m.backbone
          else feats
        .ok { logits := outsList.map (fun o => o.logits),
              feats := feats,
              loss := (outsList.map (fun o => o.loss)).sum / (m.num_large_crops : ℚ),
              acc1 := (outsList.map (fun o => o.acc1)).sum / (m.num_large_crops : ℚ),
              acc5 := (outsList.map (fun o => o.acc5)).sum / (m.num_large_crops : ℚ) }
  else .error .numCropsAssert

/-! ### `BaseMomentumMethod` steps (base.py lines 898-985) -/

/-- The extra state of a `BaseMomentumMethod` instance: the momentum backbone
and the optional momentum classifier. -/
structure MomentumModel (Img Tgt Feat : Type) extends Model Img Tgt Feat where
  momentum_backbone : Img → Feat
  /-- `self.momentum_classifier`: `nn.Linear(features_dim, num_classes)` when
  enabled, `None` otherwise; abstracted to the scalar content of its logits -/
  momentum_classifier : Option (Feat → ℚ)

/-- `BaseMomentumMethod.base_momentum_forward` (lines 898-908); the
`@torch.no_grad()` scoping is a computation-graph concern, not modelled. -/
def base_momentum_forward {Img Tgt Feat : Type} (m : MomentumModel Img Tgt Feat)
    (X : Img) : Feat :=
  m.momentum_backbone X

/-- The classifier part of a `_shared_step_momentum` output, present only when
the momentum classifier exists. -/
structure MomentumClsOut where
  logits : Logits
  loss : ℚ
  acc1 : ℚ
  acc5 : ℚ
deriving DecidableEq

/-- Output of `_shared_step_momentum`. -/
structure MomentumStepOut (Feat : Type) where
  feats : Feat
  cls : Option MomentumClsOut
deriving DecidableEq

/-- `BaseMomentumMethod._shared_step_momentum` (base.py lines 910-934):
momentum forward; when the momentum classifier exists, cross entropy and
accuracies with `top_k=(1, 5)` — the k of 5 is *not* clamped to the number of
classes here (line 931). -/
def shared_step_momentum {Img Tgt Feat : Type} (m : MomentumModel Img Tgt Feat)
    (X : Img) (targets : Tgt) : Except StepError (MomentumStepOut Feat) :=
  let feats := base_momentum_forward m X
  match m.momentum_classifier with
  | none => .ok { feats := feats, cls := none }
  | some cls =>
    let logits : Logits := { cols := m.num_classes, val := cls feats }
    let loss := m.cross_entropy logits targets
    match accuracy_at_k m.accAt logits targets [1, 5] with
    | .ok [acc1, acc5] =>
      .ok { feats := feats,
            cls := some { logits := logits, loss := loss, acc1 := acc1, acc5 := acc5 } }
    | .ok _ => .error .topkOutOfRange   -- unreachable: two ks were requested
    | .error e => .error e

/-- The merged dict `{**outs, **momentum_outs}` returned by
`BaseMomentumMethod.training_step` (line 985): the parent output (whose
`loss` was incremented by the momentum classifier loss when it exists), the
per-large-crop momentum outputs, and the averaged momentum scalars. -/
structure MomentumTrainOut (Feat : Type) where
  base : TrainOut Feat
  momentum_outs : List (MomentumStepOut Feat)
  momentum_loss : Option ℚ
  momentum_acc1 : Option ℚ
  momentum_acc5 : Option ℚ
deriving DecidableEq

/-- `BaseMomentumMethod.training_step` (base.py lines 936-985): run the parent
training step, forward the large crops (small crops removed, line 956)
through the momentum backbone, and when the momentum classifier exists,
average its loss/acc over the large crops and add the averaged momentum loss
into the total loss (`outs["loss"] += momentum_outs["momentum_loss"]`,
line 983).  Metric logging is external and not modelled. -/
def momentum_training_step {Img Tgt Feat : Type} (m : MomentumModel Img Tgt Feat)
    (batchX : Sum Img (List Img)) (targets : Tgt) :
    Except StepError (MomentumTrainOut Feat) :=
  match training_step m.toModel batchX targets with
  | .error e => .error e
  | .ok outs =>
    let X := normalizeCrops batchX
    -- remove small crops
    let X := X.take m.num_large_crops
    match mapExcept (fun x => shared_step_momentum m x targets) X with
    | .error e => .error e
    | .ok momentum_outs =>
      if momentum_outs.isEmpty then .error .emptyOutsIndex  -- momentum_outs[0].keys()
      else
        match m.momentum_classifier with
        | some _ =>
          let clsLoss := fun (o : MomentumStepOut Feat) =>
            ((o.cls.map (fun c => c.loss)).getD 0)
          let clsAcc1 := fun (o : MomentumStepOut Feat) =>
            ((o.cls.map (fun c => c.acc1)).getD 0)
          let clsAcc5 := fun (o : MomentumStepOut Feat) =>
            ((o.cls.map (fun c => c.acc5)).getD 0)
          let momentum_loss :=
            (momentum_outs.map clsLoss).sum / (m.num_large_crops : ℚ)
          let momentum_acc1 :=
            (momentum_outs.map clsAcc1).sum / (m.num_large_crops : ℚ)
          let momentum_acc5 :=
            (momentum_outs.map clsAcc5).sum / (m.num_large_crops : ℚ)
          -- adds the momentum classifier loss together with the general loss
          .ok { base := { outs with loss := outs.loss + momentum_loss },
                momentum_outs := momentum_outs,
                momentum_loss := some momentum_loss,
                momentum_acc1 := some momentum_acc1,
                momentum_acc5 := some momentum_acc5 }
        | none =>
          .ok { base := outs, momentum_outs := momentum_outs,
                momentum_loss := none, momentum_acc1 := none, momentum_acc5 := none }

/-! ### The step-gated momentum update hook (base.py lines 894-896, 987-1016) -/

/-- The trainer-owned values `on_train_batch_end` reads
(`self.trainer.global_step`, `self.trainer.accumulate_grad_batches`,
`len(self.trainer.train_dataloader)`, `self.trainer.max_epochs`).
`accumulate_grad_batches = 0` models a falsy value (`None` or `0`). -/
structure TrainerState where
  global_step : Nat
  accumulate_grad_batches : Nat
  num_train_batches : Nat
  max_epochs : Nat
deriving DecidableEq

/-- The calls `on_train_batch_end` makes into the momentum updater and the
logger, in order.  `MomentumUpdater.update` / `update_tau` live in
`solo/utils/momentum.py`, outside the given sources; only their invocations
(with which arguments, on which pairs) are claimed about, so they are
recorded as events. -/
inductive MomentumEvent (P : Type) where
  /-- `self.momentum_updater.update(*mp)` on the pair `(online, momentum)`. -/
  | ema (online momentum : P)
  /-- `self.log("tau", self.momentum_updater.cur_tau)`. -/
  | logTau (tau : ℚ)
  /-- `self.momentum_updater.update_tau(cur_step=..., max_steps=...)`. -/
  | updateTau (cur_step max_steps : Nat)
deriving DecidableEq

/-- `BaseMomentumMethod.on_train_start` (lines 894-896): `self.last_step = 0`. -/
def on_train_start : Nat := 0

/-- `BaseMomentumMethod.on_train_batch_end` (base.py lines 987-1016): when the
trainer's global step is strictly greater than `self.last_step`, run the EMA
update on every momentum pair, log the current tau, and advance tau with
`cur_step` scaled by the accumulation factor when it is truthy and
`max_steps = len(train_dataloader) * max_epochs`; in all cases set
`self.last_step` to the current global step afterwards.  `momentum_pairs` is
the virtual property read at line 1003 (subclasses extend the base list).
Returns the emitted events and the new `last_step`. -/
def on_train_batch_end {P : Type} (trainer : TrainerState)
    (momentum_pairs : List (P × P)) (cur_tau : ℚ) (last_step : Nat) :
    List (MomentumEvent P) × Nat :=
  let events :=
    if trainer.global_step > last_step then
      let cur_step := trainer.global_step
      let cur_step :=
        if trainer.accumulate_grad_batches ≠ 0 then
          cur_step * trainer.accumulate_grad_batches
        else cur_step
      (momentum_pairs.map (fun mp => MomentumEvent.ema mp.1 mp.2)) ++
        [MomentumEvent.logTau cur_tau,
         MomentumEvent.updateTau cur_step
           (trainer.num_train_batches * trainer.max_epochs)]
    else []
  (events, trainer.global_step)

/-- `BaseMomentumMethod.momentum_pairs` (lines 860-868): the backbone pair. -/
def momentum_pairs {Img Tgt Feat : Type} (m : MomentumModel Img Tgt Feat) :
    List ((Img → Feat) × (Img → Feat)) :=
  [(m.backbone, m.momentum_backbone)]

/-! ### Validation (base.py lines 724-774) -/

/-- Modelled from the spec: `weighted_mean` lives in `solo/utils/metrics.py`,
outside the given sources.  Per the spec it computes the batch-size-weighted
mean of a keyed value over the validation outputs: the sum of value times
batch size divided by the total batch size. -/
def weighted_mean {α : Type} (outputs : List α) (key : α → ℚ)
    (batch_size_key : α → ℚ) : ℚ :=
  let acc := outputs.foldl
    (fun (p : ℚ × ℚ) out => (p.1 + batch_size_key out * key out, p.2 + batch_size_key out))
    (0, 0)
  acc.1 / acc.2

/-- The metrics dict returned by `BaseMethod.validation_step` (lines 747-753). -/
structure ValMetrics where
  batch_size : Nat
  val_loss : ℚ
  val_acc1 : ℚ
  val_acc5 : ℚ
deriving DecidableEq

/-- `BaseMethod.validation_step` (base.py lines 724-753): a single view, no
crops; `batch_size = targets.size(0)` is passed in by the caller of this
embedding (targets are abstract here); the k-NN side feed (lines 744-745)
is external and not modelled. -/
def validation_step {Img Tgt Feat : Type} (m : Model Img Tgt Feat) (X : Img)
    (targets : Tgt) (batch_size : Nat) : Except StepError ValMetrics :=
  match base_shared_step m X targets with
  | .error e => .error e
  | .ok out =>
    .ok { batch_size := batch_size, val_loss := out.loss,
          val_acc1 := out.acc1, val_acc5 := out.acc5 }

/-- The scalars logged by `validation_epoch_end`. -/
structure ValEpochLog where
  val_loss : ℚ
  val_acc1 : ℚ
  val_acc5 : ℚ
deriving DecidableEq

/-- `BaseMethod.validation_epoch_end` (base.py lines 755-774): batch-size
weighted means of the three metrics (the k-NN branch is external and does not
alter these three values). -/
def validation_epoch_end (outs : List ValMetrics) : ValEpochLog :=
  { val_loss := weighted_mean outs (fun o => o.val_loss) (fun o => (o.batch_size : ℚ)),
    val_acc1 := weighted_mean outs (fun o => o.val_acc1) (fun o => (o.batch_size : ℚ)),
    val_acc5 := weighted_mean outs (fun o => o.val_acc5) (fun o => (o.batch_size : ℚ)) }

/-! ### Helper lemmas -/

/-- The successful output of `_base_shared_step`, written out explicitly. -/
def sharedOutOf {Img Tgt Feat : Type} (m : Model Img Tgt Feat) (X : Img)
    (t : Tgt) : SharedStepOut Feat :=
  let logits : Logits := { cols := m.num_classes, val := m.classifier (m.backbone X) }
  { logits := logits, feats := m.backbone X,
    loss := m.cross_entropy logits t,
    acc1 := m.accAt logits t 1,
    acc5 := m.accAt logits t (min 5 m.num_classes) }

theorem mapExcept_ok {α β : Type} (f : α → Except StepError β) (g : α → β) :
    ∀ l : List α, (∀ x ∈ l, f x = .ok (g x)) →
      mapExcept f l = .ok (l.map g) := by
  intro l
  induction l with
  | nil => intro _; rfl
  | cons a as ih =>
    intro h
    have ha := h a (by simp)
    have has := ih (fun x hx => h x (by simp [hx]))
    simp [mapExcept, ha, has]

theorem base_shared_step_ok {Img Tgt Feat : Type} (m : Model Img Tgt Feat)
    (X : Img) (t : Tgt) (h : 1 ≤ m.num_classes) :
    base_shared_step m X t = .ok (sharedOutOf m X t) := by
  have hmin : min 5 m.num_classes ≤ m.num_classes := Nat.min_le_right _ _
  unfold base_shared_step accuracy_at_k base_forward sharedOutOf
  simp [h, hmin]

/-- The output of `training_step` on a valid batch, written out explicitly:
per-large-crop shared steps, large-crop averages, and small-crop features
appended in multicrop mode. -/
def trainOutSpec {Img Tgt Feat : Type} (m : Model Img Tgt Feat)
    (bX : Sum Img (List Img)) (t : Tgt) : TrainOut Feat :=
  { logits := ((normalizeCrops bX).take m.num_large_crops).map
      (fun x => (sharedOutOf m x t).logits),
    feats := (((normalizeCrops bX).take m.num_large_crops).map m.backbone) ++
      (if m.multicrop then
        ((normalizeCrops bX).drop m.num_large_crops).map m.backbone
       else []),
    loss := (((normalizeCrops bX).take m.num_large_crops).map
      (fun x => (sharedOutOf m x t).loss)).sum / (m.num_large_crops : ℚ),
    acc1 := (((normalizeCrops bX).take m.num_large_crops).map
      (fun x => (sharedOutOf m x t).acc1)).sum / (m.num_large_crops : ℚ),
    acc5 := (((normalizeCrops bX).take m.num_large_crops).map
      (fun x => (sharedOutOf m x t).acc5)).sum / (m.num_large_crops : ℚ) }

theorem training_step_spec {Img Tgt Feat : Type} (m : Model Img Tgt Feat)
    (bX : Sum Img (List Img)) (t : Tgt)
    (hlen : (normalizeCrops bX).length = m.num_crops)
    (hL : 0 < m.num_large_crops) (hcls : 1 ≤ m.num_classes) :
    training_step m bX t = .ok (trainOutSpec m bX t) := by
  have hmap := mapExcept_ok (fun x => base_shared_step m x t)
    (fun x => sharedOutOf m x t) ((normalizeCrops bX).take m.num_large_crops)
    (fun x _ => base_shared_step_ok m x t hcls)
  have htake : ((normalizeCrops bX).take m.num_large_crops).length =
      m.num_large_crops := by
    rw [List.length_take, hlen]
    exact Nat.min_eq_left (Nat.le_add_right _ _)
  have hne : ((normalizeCrops bX).take m.num_large_crops).map
      (fun x => sharedOutOf m x t) ≠ [] := by
    intro hc
    have h0 := congrArg List.length hc
    simp only [List.length_map, List.length_nil] at h0
    rw [htake] at h0
    omega
  unfold training_step trainOutSpec
  rw [if_pos hlen, hmap]
  simp only [List.isEmpty_eq_true, hne, if_false]
  refine congrArg Except.ok ?_
  simp only [TrainOut.mk.injEq, List.map_map, Function.comp]
  refine ⟨rfl, ?_, rfl, rfl, rfl⟩
  cases hmc : m.multicrop
  · simp only [hmc, Bool.false_eq_true, if_false, List.append_nil]
    rfl
  · simp only [hmc, if_true]
    rfl

theorem weighted_mean_eq {α : Type} (outputs : List α) (key w : α → ℚ) :
    weighted_mean outputs key w =
      (outputs.map (fun o => w o * key o)).sum / (outputs.map w).sum := by
  have h : ∀ (l : List α) (a b : ℚ),
      (l.foldl (fun (p : ℚ × ℚ) out => (p.1 + w out * key out, p.2 + w out)) (a, b)) =
        (a + (l.map (fun o => w o * key o)).sum, b + (l.map w).sum) := by
    intro l
    induction l with
    | nil => intro a b; simp
    | cons x xs ih => intro a b; simp [ih, add_assoc]
  unfold weighted_mean
  simp [h]

theorem foldl_set_const_getElem (c : ℚ) :
    ∀ (ps : List (Nat × ℚ)) (l : List ℚ) (j : Nat), (∀ p ∈ ps, p.2 = c) →
      ((ps.foldl (fun lrs p => lrs.set p.1 p.2) l)[j]? =
        if j ∈ ps.map Prod.fst ∧ j < l.length then some c else l[j]?) := by
  intro ps
  induction ps with
  | nil => intro l j _; simp
  | cons p ps ih =>
    intro l j hc
    obtain ⟨i, v⟩ := p
    have hv : c = v := (hc (i, v) (by simp)).symm
    subst hv
    have hrec := ih (l.set i c) j (fun q hq => hc q (by simp [hq]))
    simp only [List.foldl_cons]
    rw [hrec, List.length_set, List.getElem?_set]
    by_cases hmem : j ∈ ps.map Prod.fst <;> by_cases hj : j < l.length <;>
      by_cases hij : i = j <;>
      simp [hmem, hj, hij, List.getElem?_eq_none, Nat.le_of_not_lt] <;>
      rw [if_neg (fun h => hij h.symm)]

/-- `static_lr` with the replacement list `[self.lr] * len(idxs)`: the entry
at each (in-range) static index becomes `c`; every other entry is whatever
the scheduler computed. -/
theorem static_lr_getElem (g : Unit → List ℚ) (idxs : List Nat) (c : ℚ) (j : Nat) :
    (static_lr g idxs (List.replicate idxs.length c))[j]? =
      if j ∈ idxs ∧ j < (g ()).length then some c else (g ())[j]? := by
  unfold static_lr
  have hfst : (idxs.zip (List.replicate idxs.length c)).map Prod.fst = idxs :=
    List.map_fst_zip _ _ (by simp)
  have hsnd : ∀ p ∈ idxs.zip (List.replicate idxs.length c), p.2 = c := by
    intro p hp
    exact List.eq_of_mem_replicate (List.of_mem_zip hp).2
  rw [foldl_set_const_getElem c _ _ _ hsnd, hfst]

/-! ### Claim theorems -/

/-- C8: for every construction with a truthy `accumulate_grad_batches`, the
four fields `lr`, `classifier_lr`, `min_lr`, `warmup_start_lr` are each
multiplied by the accumulation factor exactly once during `__init__` (before
any optimizer exists — `configure_optimizers` only ever sees the stored
state), and no other configuration field is rescaled. -/
theorem C8_accumulation_scales_four_lr_fields (env : String → BackboneNet)
    (cfg : InitCfg) (n : Nat) (st : InitState)
    (hacc : cfg.accumulate_grad_batches = some n) (hn : n ≠ 0)
    (hok : BaseMethod_init env cfg = .ok st) :
    st.lr = cfg.lr * n ∧ st.classifier_lr = cfg.classifier_lr * n ∧
    st.min_lr = cfg.min_lr * n ∧ st.warmup_start_lr = cfg.warmup_start_lr * n ∧
    st.weight_decay = cfg.weight_decay ∧ st.eta_lars = cfg.eta_lars ∧
    st.num_classes = cfg.num_classes ∧ st.max_epochs = cfg.max_epochs ∧
    st.batch_size = cfg.batch_size ∧ st.warmup_epochs = cfg.warmup_epochs ∧
    st.num_large_crops = cfg.num_large_crops ∧
    st.num_small_crops = cfg.num_small_crops ∧
    st.knn_k = cfg.knn_k ∧ st.out_size = cfg.out_size := by
  unfold BaseMethod_init at hok
  rw [hacc] at hok
  simp only [hn, ne_eq, not_false_eq_true, if_true] at hok
  split at hok
  · split at hok
    · split at hok
      · exact absurd hok (by simp)
      · injection hok with h
        subst h
        exact ⟨rfl, rfl, rfl, rfl, rfl, rfl, rfl, rfl, rfl, rfl, rfl, rfl, rfl, rfl⟩
    · split at hok
      · exact absurd hok (by simp)
      · injection hok with h
        subst h
        exact ⟨rfl, rfl, rfl, rfl, rfl, rfl, rfl, rfl, rfl, rfl, rfl, rfl, rfl, rfl⟩
  · exact absurd hok (by simp)

/-- A trivial factory environment for concrete instantiations. -/
def envW : String → BackboneNet := fun _ => { inplanes := 512, num_features := 768 }

/-- A concrete configuration with `lr = 0.1` and `accumulate_grad_batches = 4`. -/
def cfgW : InitCfg :=
  { backbone := "resnet18", num_classes := 10, max_epochs := 2, batch_size := 4,
    optimizer := "sgd", lars := false, lr := 1/10, weight_decay := 1/100000,
    classifier_lr := 3/10, exclude_bias_n_norm := false,
    accumulate_grad_batches := some 4, scheduler := "none", min_lr := 1/1000,
    warmup_start_lr := 3/100000, warmup_epochs := 10, num_large_crops := 2,
    num_small_crops := 0, eta_lars := 1/1000, grad_clip_lars := false,
    lr_decay_steps := none, knn_eval := false, knn_k := 20, out_size := 2048 }

/-- The state `BaseMethod_init envW cfgW` produces. -/
def stW : InitState :=
  { lr := (1/10 : ℚ) * ((4 : ℕ) : ℚ), classifier_lr := (3/10 : ℚ) * ((4 : ℕ) : ℚ),
    min_lr := (1/1000 : ℚ) * ((4 : ℕ) : ℚ),
    warmup_start_lr := (3/100000 : ℚ) * ((4 : ℕ) : ℚ),
    weight_decay := 1/100000, eta_lars := 1/1000, num_classes := 10,
    max_epochs := 2, batch_size := 4, warmup_epochs := 10, num_large_crops := 2,
    num_small_crops := 0, num_crops := 2, multicrop := false, knn_k := 20,
    out_size := 2048, features_dim := 512, backbone := envW "resnet18" }

theorem C8_witness :
    BaseMethod_init envW cfgW = .ok stW ∧ stW.lr = 2/5 ∧
    stW.classifier_lr = 6/5 ∧ stW.weight_decay = cfgW.weight_decay := by
  have hok : BaseMethod_init envW cfgW = .ok stW := rfl
  have h := C8_accumulation_scales_four_lr_fields envW cfgW 4 stW rfl
    (by decide) hok
  refine ⟨hok, ?_, ?_, h.2.2.2.2.1⟩
  · rw [h.1]
    norm_num [cfgW]
  · rw [h.2.1]
    norm_num [cfgW]

/-- C10: `"resnetlarge1"` is a registered architecture name, so construction
passes the registry assertion; but its factory has an empty body and returns
`None`, so `__init__` fails only afterwards, with an `AttributeError` on the
`None` backbone (`inplanes` / `fc`) — registry membership does not guarantee
a constructible backbone. -/
theorem C10_resnetlarge1_passes_registry_but_unconstructible :
    ("resnetlarge1" ∈ supportedBackbones) ∧
    (∀ env : String → BackboneNet, applyFactory env "resnetlarge1" = none) ∧
    (∀ (env : String → BackboneNet) (cfg : InitCfg),
      BaseMethod_init env { cfg with backbone := "resnetlarge1" } =
        .error .noneBackboneAttribute) := by
  have key : ∀ (env : String → BackboneNet) (cfg : InitCfg),
      cfg.backbone = "resnetlarge1" →
      BaseMethod_init env cfg = .error .noneBackboneAttribute := by
    intro env cfg hb
    unfold BaseMethod_init
    rw [hb]
    rw [if_pos (by decide), show applyFactory env "resnetlarge1" = none from rfl,
      if_pos (by decide)]
  exact ⟨by decide, fun env => rfl, fun env cfg => key env _ rfl⟩

/-! ### `configure_optimizers` helper lemmas -/

theorem selectOptimizer_ok (cfg : OptCfg) (groups : List ParamGroup)
    (h : cfg.optimizer ∈ (["sgd", "adam", "adamw"] : List String)) :
    selectOptimizer cfg groups =
      .ok { kind := cfg.optimizer, param_groups := groups, lr := cfg.lr,
            weight_decay := cfg.weight_decay, lars_wrapped := false } := by
  rcases (by simpa using h : cfg.optimizer = "sgd" ∨ cfg.optimizer = "adam" ∨
      cfg.optimizer = "adamw") with h1 | h1 | h1 <;>
    (unfold selectOptimizer; rw [h1]) <;> simp

theorem selectOptimizer_err (cfg : OptCfg) (groups : List ParamGroup)
    (h : cfg.optimizer ∉ (["sgd", "adam", "adamw"] : List String)) :
    selectOptimizer cfg groups = .error (.unknownOptimizer cfg.optimizer) := by
  obtain ⟨h1, h2, h3⟩ : ¬cfg.optimizer = "sgd" ∧ ¬cfg.optimizer = "adam" ∧
      ¬cfg.optimizer = "adamw" := by simpa using h
  unfold selectOptimizer
  rw [if_neg h1, if_neg h2, if_neg h3]

theorem wrapLars_ok (cfg : OptCfg) (opt : Optimizer)
    (hl : cfg.lars = true → cfg.optimizer = "sgd") :
    wrapLars cfg opt =
      .ok (if cfg.lars then { opt with lars_wrapped := true } else opt) := by
  unfold wrapLars
  cases hc : cfg.lars
  · simp
  · simp [hl hc]

theorem buildScheduler_none (cfg : OptCfg) (idxs : List Nat) (g : Unit → List ℚ)
    (h : cfg.scheduler = "none") : buildScheduler cfg idxs g = .ok none := by
  unfold buildScheduler
  rw [if_pos h]

theorem buildScheduler_err (cfg : OptCfg) (idxs : List Nat) (g : Unit → List ℚ)
    (h : cfg.scheduler ∉ (["none", "warmup_cosine", "cosine", "step"] : List String)) :
    buildScheduler cfg idxs g = .error (.unknownScheduler cfg.scheduler) := by
  obtain ⟨h0, h1, h2, h3⟩ : ¬cfg.scheduler = "none" ∧ ¬cfg.scheduler = "warmup_cosine" ∧
      ¬cfg.scheduler = "cosine" ∧ ¬cfg.scheduler = "step" := by simpa using h
  unfold buildScheduler
  rw [if_neg h0, if_neg (by simp [h1, h2, h3])]

theorem buildScheduler_static (cfg : OptCfg) (idxs : List Nat) (g : Unit → List ℚ)
    (h : cfg.scheduler ∈ (["warmup_cosine", "cosine", "step"] : List String))
    (hne : idxs ≠ []) :
    buildScheduler cfg idxs g =
      .ok (some { kind := cfg.scheduler,
                  get_lr := fun _ =>
                    static_lr g idxs (List.replicate idxs.length cfg.lr) }) := by
  have h3 : cfg.scheduler = "warmup_cosine" ∨ cfg.scheduler = "cosine" ∨
      cfg.scheduler = "step" := by simpa using h
  have h0 : ¬cfg.scheduler = "none" := by
    rcases h3 with h1 | h1 | h1 <;> rw [h1] <;> decide
  unfold buildScheduler
  rw [if_neg h0, if_pos h3,
    if_neg (fun hb => hne (List.isEmpty_eq_true.mp hb))]

/-- C9: configuration errors are fatal and raised at their point of
detection: an unregistered architecture fails the construction-time assert;
an unknown optimizer name, LARS with a non-SGD optimizer, and an unknown
scheduler name each raise at optimizer-configuration time; and
`scheduler = "none"` returns the bare optimizer with no paired scheduler. -/
theorem C9_configuration_errors_fatal (env : String → BackboneNet)
    (icfg : InitCfg) (cfg : OptCfg) (params : List ParamGroup)
    (g : Unit → List ℚ) :
    (icfg.backbone ∉ supportedBackbones →
      BaseMethod_init env icfg = .error (.unsupportedBackbone icfg.backbone)) ∧
    (cfg.optimizer ∉ (["sgd", "adam", "adamw"] : List String) →
      configure_optimizers cfg params g =
        .error (.unknownOptimizer cfg.optimizer)) ∧
    ((cfg.optimizer = "adam" ∨ cfg.optimizer = "adamw") → cfg.lars = true →
      configure_optimizers cfg params g = .error .larsRequiresSgd) ∧
    (cfg.optimizer ∈ (["sgd", "adam", "adamw"] : List String) →
      (cfg.lars = true → cfg.optimizer = "sgd") →
      cfg.scheduler ∉ (["none", "warmup_cosine", "cosine", "step"] : List String) →
      configure_optimizers cfg params g =
        .error (.unknownScheduler cfg.scheduler)) ∧
    (cfg.optimizer ∈ (["sgd", "adam", "adamw"] : List String) →
      (cfg.lars = true → cfg.optimizer = "sgd") → cfg.scheduler = "none" →
      ∃ opt, configure_optimizers cfg params g = .ok (.bare opt)) := by
  refine ⟨?_, ?_, ?_, ?_, ?_⟩
  · intro h
    unfold BaseMethod_init
    rw [if_neg h]
  · intro h
    simp only [configure_optimizers]
    rw [selectOptimizer_err cfg _ h]
  · intro hopt hlars
    have hwrap : wrapLars cfg
        { kind := cfg.optimizer, param_groups := params.map (fun p => { p with static_lr := false }),
          lr := cfg.lr, weight_decay := cfg.weight_decay, lars_wrapped := false } =
        .error .larsRequiresSgd := by
      unfold wrapLars
      rw [if_pos hlars, if_neg (by rcases hopt with h | h <;> rw [h] <;> decide)]
    simp only [configure_optimizers,
      selectOptimizer_ok cfg _ (show cfg.optimizer ∈ (["sgd", "adam", "adamw"] : List String) by rcases hopt with h | h <;> simp [h]),
      hwrap]
  · intro hopt hlars hsch
    simp only [configure_optimizers, selectOptimizer_ok cfg _ hopt,
      wrapLars_ok cfg _ hlars, buildScheduler_err cfg _ g hsch]
  · intro hopt hlars hsch
    refine ⟨if cfg.lars then
        { kind := cfg.optimizer,
          param_groups := params.map (fun p => { p with static_lr := false }),
          lr := cfg.lr, weight_decay := cfg.weight_decay, lars_wrapped := true }
      else
        { kind := cfg.optimizer,
          param_groups := params.map (fun p => { p with static_lr := false }),
          lr := cfg.lr, weight_decay := cfg.weight_decay, lars_wrapped := false }, ?_⟩
    simp only [configure_optimizers, selectOptimizer_ok cfg _ hopt,
      wrapLars_ok cfg _ hlars, buildScheduler_none cfg _ g hsch]

def cfgLamb : OptCfg :=
  { optimizer := "lamb", lars := false, scheduler := "none", lr := 3, weight_decay := 0 }

def cfgAdamLars : OptCfg :=
  { optimizer := "adam", lars := true, scheduler := "none", lr := 3, weight_decay := 0 }

def cfgSgdReduce : OptCfg :=
  { optimizer := "sgd", lars := false, scheduler := "reduce", lr := 3, weight_decay := 0 }

def cfgSgdNone : OptCfg :=
  { optimizer := "sgd", lars := false, scheduler := "none", lr := 3, weight_decay := 0 }

theorem C9_witness :
    BaseMethod_init envW { cfgW with backbone := "alexnet" } =
      .error (.unsupportedBackbone "alexnet") ∧
    configure_optimizers cfgLamb [] (fun _ => []) =
      .error (.unknownOptimizer "lamb") ∧
    configure_optimizers cfgAdamLars [] (fun _ => []) =
      .error .larsRequiresSgd ∧
    configure_optimizers cfgSgdReduce [] (fun _ => []) =
      .error (.unknownScheduler "reduce") ∧
    (∃ opt, configure_optimizers cfgSgdNone [] (fun _ => []) =
      .ok (.bare opt)) := by
  refine ⟨?_, ?_, ?_, ?_, ?_⟩
  · exact (C9_configuration_errors_fatal envW { cfgW with backbone := "alexnet" }
      cfgSgdNone [] (fun _ => [])).1 (by decide)
  · exact (C9_configuration_errors_fatal envW cfgW cfgLamb [] (fun _ => [])).2.1
      (by decide)
  · exact (C9_configuration_errors_fatal envW cfgW cfgAdamLars [] (fun _ => [])).2.2.1
      (Or.inl rfl) rfl
  · exact (C9_configuration_errors_fatal envW cfgW cfgSgdReduce [] (fun _ => [])).2.2.2.1
      (by decide) (fun h => by cases h) (by decide)
  · exact (C9_configuration_errors_fatal envW cfgW cfgSgdNone [] (fun _ => [])).2.2.2.2
      (by decide) (fun h => by cases h) rfl

/-- C2 (amended): when at least one parameter group is marked `static_lr`,
the scheduler's `get_lr` is wrapped so that, after the scheduler's own
computation, the rate at each static group's index is overwritten to the
*base* learning rate `self.lr` — the same single value for every static
group, not each group's own configured rate — while non-static indices keep
the scheduler's values. -/
theorem C2_static_groups_pinned_to_base_lr (cfg : OptCfg)
    (params : List ParamGroup) (g : Unit → List ℚ)
    (hopt : cfg.optimizer ∈ (["sgd", "adam", "adamw"] : List String))
    (hlars : cfg.lars = true → cfg.optimizer = "sgd")
    (hsch : cfg.scheduler ∈ (["warmup_cosine", "cosine", "step"] : List String))
    (hstatic : idxs_no_scheduler params ≠ []) :
    ∃ opt sched,
      configure_optimizers cfg params g = .ok (.withScheduler opt sched) ∧
      sched.get_lr () = static_lr g (idxs_no_scheduler params)
        (List.replicate (idxs_no_scheduler params).length cfg.lr) ∧
      (∀ j ∈ idxs_no_scheduler params, j < (g ()).length →
        (sched.get_lr ())[j]? = some cfg.lr) ∧
      (∀ j, j ∉ idxs_no_scheduler params →
        (sched.get_lr ())[j]? = (g ())[j]?) := by
  refine ⟨(if cfg.lars then
      { kind := cfg.optimizer,
        param_groups := params.map (fun p => { p with static_lr := false }),
        lr := cfg.lr, weight_decay := cfg.weight_decay, lars_wrapped := true }
    else
      { kind := cfg.optimizer,
        param_groups := params.map (fun p => { p with static_lr := false }),
        lr := cfg.lr, weight_decay := cfg.weight_decay, lars_wrapped := false }),
    { kind := cfg.scheduler,
      get_lr := fun _ => static_lr g (idxs_no_scheduler params)
        (List.replicate (idxs_no_scheduler params).length cfg.lr) },
    ?_, rfl, ?_, ?_⟩
  · simp only [configure_optimizers, selectOptimizer_ok cfg _ hopt,
      wrapLars_ok cfg _ hlars,
      buildScheduler_static cfg (idxs_no_scheduler params) g hsch hstatic]
  · intro j hj hlt
    rw [static_lr_getElem]
    rw [if_pos ⟨hj, hlt⟩]
  · intro j hj
    rw [static_lr_getElem]
    rw [if_neg (fun hc => hj hc.1)]

/-- The optimizer config used by the C2 counterexample/witness:
base `lr = 3`. -/
def cexCfg : OptCfg :=
  { optimizer := "sgd", lars := false, scheduler := "cosine", lr := 3,
    weight_decay := 0 }

/-- Parameter groups with a static classifier group whose configured rate
is `classifier_lr = 5 ≠ 3 = lr`. -/
def cexParams : List ParamGroup :=
  [{ name := "backbone", lr := none, weight_decay := none, static_lr := false },
   { name := "classifier", lr := some 5, weight_decay := some 0, static_lr := true }]

/-- A scheduler computation producing `[2, 7]`. -/
def cexG : Unit → List ℚ := fun _ => [2, 7]

/-- C2 counterexample: with `lr = 3` and a static classifier group whose
configured `classifier_lr = 5`, the wrapped `get_lr` yields `3` at the
classifier's index, not the group's own fixed rate `5` — the claim that each
static group keeps *its* original learning-rate value is false. -/
theorem C2_counterexample :
    (match configure_optimizers cexCfg cexParams cexG with
     | .ok (.withScheduler _ sched) => sched.get_lr ()
     | _ => []) = [2, 3] ∧
    cexParams[1]?.map ParamGroup.lr = some (some 5) ∧
    cexParams[1]?.map ParamGroup.static_lr = some true ∧
    ((3 : ℚ) ≠ 5) := by
  refine ⟨rfl, rfl, rfl, by norm_num⟩

theorem C2_witness :
    ∃ opt sched,
      configure_optimizers cexCfg cexParams cexG = .ok (.withScheduler opt sched) ∧
      (sched.get_lr ())[1]? = some cexCfg.lr ∧
      (sched.get_lr ())[0]? = (cexG ())[0]? := by
  obtain ⟨opt, sched, hok, hwrap, hstatic, hother⟩ :=
    C2_static_groups_pinned_to_base_lr cexCfg cexParams cexG (by decide)
      (fun h => by cases h) (by decide) (by decide)
  exact ⟨opt, sched, hok, hstatic 1 (by decide) (by decide), hother 0 (by decide)⟩

/-- C1: `on_train_batch_end` performs the EMA update of every momentum pair
and the tau advancement exactly when the trainer's global step is strictly
greater than the last-seen step; afterwards `last_step` is always set to the
current global step (so a second call at the same global step fires
nothing); the `cur_step` passed to `update_tau` is the global step times the
accumulation factor when accumulation is configured (truthy), and
`max_steps` is the number of training batches per epoch times `max_epochs`. -/
theorem C1_step_gated_momentum_update {P : Type} (trainer : TrainerState)
    (pairs : List (P × P)) (cur_tau : ℚ) (last_step : Nat) :
    (on_train_batch_end trainer pairs cur_tau last_step).2 =
      trainer.global_step ∧
    (trainer.global_step > last_step →
      (on_train_batch_end trainer pairs cur_tau last_step).1 =
        (pairs.map (fun mp => MomentumEvent.ema mp.1 mp.2)) ++
          [MomentumEvent.logTau cur_tau,
           MomentumEvent.updateTau
             (if trainer.accumulate_grad_batches ≠ 0 then
                trainer.global_step * trainer.accumulate_grad_batches
              else trainer.global_step)
             (trainer.num_train_batches * trainer.max_epochs)]) ∧
    (¬ trainer.global_step > last_step →
      (on_train_batch_end trainer pairs cur_tau last_step).1 = []) ∧
    ((on_train_batch_end trainer pairs cur_tau
        (on_train_batch_end trainer pairs cur_tau last_step).2).1 = []) := by
  refine ⟨rfl, fun hgt => ?_, fun hle => ?_, ?_⟩
  · simp [on_train_batch_end, hgt]
  · simp [on_train_batch_end, hle]
  · simp [on_train_batch_end]

theorem C1_witness :
    (on_train_batch_end (P := Nat) ⟨5, 2, 10, 3⟩ [(1, 2)] (99/100) 4).1 =
      [MomentumEvent.ema 1 2, MomentumEvent.logTau (99/100),
       MomentumEvent.updateTau 10 30] ∧
    (on_train_batch_end (P := Nat) ⟨5, 2, 10, 3⟩ [(1, 2)] (99/100) 4).2 = 5 ∧
    (on_train_batch_end (P := Nat) ⟨5, 2, 10, 3⟩ [(1, 2)] (99/100) 5).1 = [] := by
  have h := C1_step_gated_momentum_update (P := Nat) ⟨5, 2, 10, 3⟩ [(1, 2)]
    (99/100) 4
  refine ⟨?_, h.1, ?_⟩
  · rw [h.2.1 (by decide)]
    rfl
  · have h5 := C1_step_gated_momentum_update (P := Nat) ⟨5, 2, 10, 3⟩ [(1, 2)]
      (99/100) 5
    exact h5.2.2.1 (by decide)

/-- C7: `validation_epoch_end` aggregates `val_loss` / `val_acc1` / `val_acc5`
by the batch-size-weighted mean — sum of value times batch size over total
batch size — not the unweighted arithmetic mean. -/
theorem C7_batch_size_weighted_validation_means (outs : List ValMetrics)
    (hne : outs ≠ []) :
    validation_epoch_end outs =
      { val_loss := (outs.map (fun o => (o.batch_size : ℚ) * o.val_loss)).sum /
          (outs.map (fun o => (o.batch_size : ℚ))).sum,
        val_acc1 := (outs.map (fun o => (o.batch_size : ℚ) * o.val_acc1)).sum /
          (outs.map (fun o => (o.batch_size : ℚ))).sum,
        val_acc5 := (outs.map (fun o => (o.batch_size : ℚ) * o.val_acc5)).sum /
          (outs.map (fun o => (o.batch_size : ℚ))).sum } := by
  unfold validation_epoch_end
  rw [weighted_mean_eq, weighted_mean_eq, weighted_mean_eq]

/-- The batches of the spec's worked example: sizes `[10, 10, 2]` with
losses `[1, 2, 5]`. -/
def valOutsW : List ValMetrics :=
  [{ batch_size := 10, val_loss := 1, val_acc1 := 1/2, val_acc5 := 1 },
   { batch_size := 10, val_loss := 2, val_acc1 := 1/2, val_acc5 := 1 },
   { batch_size := 2, val_loss := 5, val_acc1 := 1/2, val_acc5 := 1 }]

theorem C7_witness :
    (validation_epoch_end valOutsW).val_loss = 20/11 ∧
    ((20 : ℚ)/11 ≠ 8/3) ∧
    ((1 + 2 + 5 : ℚ)/3 = 8/3) := by
  refine ⟨?_, by norm_num, by norm_num⟩
  rw [C7_batch_size_weighted_validation_means valOutsW (by simp [valOutsW])]
  show ((10 : ℚ) * 1 + ((10 : ℚ) * 2 + ((2 : ℚ) * 5 + 0))) /
      ((10 : ℚ) + ((10 : ℚ) + ((2 : ℚ) + 0))) = 20/11
  norm_num

/-! ### Momentum step helper lemmas -/

theorem shared_step_momentum_none {Img Tgt Feat : Type}
    (m : MomentumModel Img Tgt Feat) (X : Img) (t : Tgt)
    (h : m.momentum_classifier = none) :
    shared_step_momentum m X t =
      .ok { feats := m.momentum_backbone X, cls := none } := by
  unfold shared_step_momentum base_momentum_forward
  rw [h]

/-- The explicit output of `_shared_step_momentum` when the momentum
classifier `cls` exists and `5 ≤ num_classes`. -/
def momOutSpec {Img Tgt Feat : Type} (m : MomentumModel Img Tgt Feat)
    (cls : Feat → ℚ) (X : Img) (t : Tgt) : MomentumStepOut Feat :=
  { feats := m.momentum_backbone X,
    cls := some
      { logits := { cols := m.num_classes, val := cls (m.momentum_backbone X) },
        loss := m.cross_entropy
          { cols := m.num_classes, val := cls (m.momentum_backbone X) } t,
        acc1 := m.accAt
          { cols := m.num_classes, val := cls (m.momentum_backbone X) } t 1,
        acc5 := m.accAt
          { cols := m.num_classes, val := cls (m.momentum_backbone X) } t 5 } }

theorem shared_step_momentum_some {Img Tgt Feat : Type}
    (m : MomentumModel Img Tgt Feat) (X : Img) (t : Tgt) (cls : Feat → ℚ)
    (hc : m.momentum_classifier = some cls) (h5 : 5 ≤ m.num_classes) :
    shared_step_momentum m X t = .ok (momOutSpec m cls X t) := by
  have h1 : 1 ≤ m.num_classes := le_trans (by norm_num) h5
  unfold shared_step_momentum base_momentum_forward accuracy_at_k momOutSpec
  rw [hc]
  simp [h1, h5]

theorem shared_step_momentum_err {Img Tgt Feat : Type}
    (m : MomentumModel Img Tgt Feat) (X : Img) (t : Tgt) (cls : Feat → ℚ)
    (hc : m.momentum_classifier = some cls) (hlt : m.num_classes < 5) :
    shared_step_momentum m X t = .error .topkOutOfRange := by
  have h5 : ¬ (5 ≤ m.num_classes) := Nat.not_le.mpr hlt
  unfold shared_step_momentum base_momentum_forward accuracy_at_k
  rw [hc]
  simp [h5]

/-- C3 (amended): only the online step `_base_shared_step` clamps the top-k
parameter to `min(5, number of classes)` and raises no error; the
momentum-classifier step `_shared_step_momentum` passes `k = 5` unclamped,
and errors whenever the momentum classifier exists and the number of classes
is fewer than 5. -/
theorem C3_top5_clamped_only_in_online_step {Img Tgt Feat : Type}
    (m : Model Img Tgt Feat) (mm : MomentumModel Img Tgt Feat) (cls : Feat → ℚ)
    (X Y : Img) (t u : Tgt)
    (hn : 1 ≤ m.num_classes) (hcls : mm.momentum_classifier = some cls)
    (hlt : mm.num_classes < 5) :
    (base_shared_step m X t = .ok (sharedOutOf m X t) ∧
      (sharedOutOf m X t).acc5 =
        m.accAt (sharedOutOf m X t).logits t (min 5 m.num_classes)) ∧
    shared_step_momentum mm Y u = .error .topkOutOfRange :=
  ⟨⟨base_shared_step_ok m X t hn, rfl⟩,
   shared_step_momentum_err mm Y u cls hcls hlt⟩

/-- A momentum method instance with 3 classes and a momentum classifier. -/
def C3Model : MomentumModel Nat Nat Nat :=
  { num_classes := 3, num_large_crops := 1, num_small_crops := 0,
    backbone := fun x => x, classifier := fun _ => 0,
    cross_entropy := fun l _ => l.val, accAt := fun _ _ _ => 0,
    momentum_backbone := fun x => x, momentum_classifier := some (fun _ => 0) }

/-- C3 counterexample: with 3 classes, `_shared_step_momentum` raises the
top-k error (its `top_k=(1, 5)` is not clamped), while `_base_shared_step`
on the same instance succeeds — so the claim that *both* shared steps clamp
k and raise no error is false. -/
theorem C3_counterexample :
    shared_step_momentum C3Model 0 0 = .error .topkOutOfRange ∧
    C3Model.num_classes = 3 ∧
    base_shared_step C3Model.toModel 0 0 =
      .ok { logits := { cols := 3, val := 0 }, feats := 0, loss := 0,
            acc1 := 0, acc5 := 0 } :=
  ⟨rfl, rfl, rfl⟩

theorem C3_witness :
    (base_shared_step C3Model.toModel 0 0 = .ok (sharedOutOf C3Model.toModel 0 0) ∧
      (sharedOutOf C3Model.toModel 0 0).acc5 =
        C3Model.toModel.accAt (sharedOutOf C3Model.toModel 0 0).logits 0
          (min 5 C3Model.toModel.num_classes)) ∧
    shared_step_momentum C3Model 1 1 = .error .topkOutOfRange :=
  C3_top5_clamped_only_in_online_step C3Model.toModel C3Model (fun _ => 0)
    0 1 0 1 (by decide) rfl (by decide)

/-- C4: on a batch with the configured number of crops, `training_step`
computes loss/acc1/acc5 per large crop only and returns their equal-weight
arithmetic means (sum over the first `num_large_crops` crops divided by
`num_large_crops`); small crops contribute only backbone features appended
to the feature list. -/
theorem C4_per_large_crop_averaging {Img Tgt Feat : Type}
    (m : Model Img Tgt Feat) (bX : Sum Img (List Img)) (t : Tgt)
    (hlen : (normalizeCrops bX).length = m.num_crops)
    (hL : 0 < m.num_large_crops) (hcls : 1 ≤ m.num_classes) :
    ∃ out, training_step m bX t = .ok out ∧
      out.loss = (((normalizeCrops bX).take m.num_large_crops).map
        (fun x => (sharedOutOf m x t).loss)).sum / (m.num_large_crops : ℚ) ∧
      out.acc1 = (((normalizeCrops bX).take m.num_large_crops).map
        (fun x => (sharedOutOf m x t).acc1)).sum / (m.num_large_crops : ℚ) ∧
      out.acc5 = (((normalizeCrops bX).take m.num_large_crops).map
        (fun x => (sharedOutOf m x t).acc5)).sum / (m.num_large_crops : ℚ) ∧
      out.feats = ((normalizeCrops bX).take m.num_large_crops).map m.backbone ++
        (if m.multicrop then
          ((normalizeCrops bX).drop m.num_large_crops).map m.backbone
         else []) ∧
      out.logits = ((normalizeCrops bX).take m.num_large_crops).map
        (fun x => (sharedOutOf m x t).logits) :=
  ⟨_, training_step_spec m bX t hlen hL hcls, rfl, rfl, rfl, rfl, rfl⟩

/-- A base method instance with two large crops whose per-crop loss is 7. -/
def C4Model : Model Nat Nat Nat :=
  { num_classes := 10, num_large_crops := 2, num_small_crops := 0,
    backbone := fun x => x, classifier := fun _ => 7,
    cross_entropy := fun l _ => l.val, accAt := fun _ _ _ => 1/2 }

theorem C4_witness :
    (∃ out, training_step C4Model (Sum.inr [3, 3]) 0 = .ok out ∧ out.loss = 7) ∧
    (sharedOutOf C4Model 3 0).loss = 7 := by
  obtain ⟨out, hok, hloss, _, _, _, _⟩ :=
    C4_per_large_crop_averaging C4Model (Sum.inr [3, 3]) 0 (by decide)
      (by decide) (by decide)
  refine ⟨⟨out, hok, ?_⟩, rfl⟩
  rw [hloss]
  show ((7 : ℚ) + ((7 : ℚ) + 0)) / ((2 : ℕ) : ℚ) = 7
  norm_num

/-- C6: `training_step` first normalizes a single image tensor into a
one-element crop list, and then raises the assertion failure exactly when
the crop-list length differs from the configured `num_crops`. -/
theorem C6_crop_count_assertion {Img Tgt Feat : Type}
    (m : Model Img Tgt Feat) (bX : Sum Img (List Img)) (t : Tgt)
    (hL : 0 < m.num_large_crops) (hcls : 1 ≤ m.num_classes) :
    (training_step m bX t = .error .numCropsAssert ↔
      (normalizeCrops bX).length ≠ m.num_crops) ∧
    (∀ x : Img, normalizeCrops (Sum.inl x) = [x]) := by
  refine ⟨⟨?_, ?_⟩, fun x => rfl⟩
  · intro herr hlen
    rw [training_step_spec m bX t hlen hL hcls] at herr
    simp at herr
  · intro hne
    unfold training_step
    rw [if_neg hne]

/-- A base method instance configured for `2 + 2 = 4` crops. -/
def C6Model : Model Nat Nat Nat :=
  { num_classes := 10, num_large_crops := 2, num_small_crops := 2,
    backbone := fun x => x, classifier := fun _ => 0,
    cross_entropy := fun l _ => l.val, accAt := fun _ _ _ => 0 }

theorem C6_witness :
    training_step C6Model (Sum.inr [0, 1, 2]) 0 = .error .numCropsAssert ∧
    normalizeCrops (Sum.inl (5 : Nat)) = [5] := by
  have h := C6_crop_count_assertion C6Model (Sum.inr [0, 1, 2]) 0 (by decide)
    (by decide)
  exact ⟨h.1.mpr (by decide), h.2 5⟩

/-- The large-crop average of a momentum-classifier scalar, in the exact
shape `BaseMomentumMethod.training_step` computes it. -/
def momentumAvg {Img Tgt Feat : Type} (m : MomentumModel Img Tgt Feat)
    (cls : Feat → ℚ) (bX : Sum Img (List Img)) (t : Tgt)
    (proj : MomentumClsOut → ℚ) : ℚ :=
  ((((normalizeCrops bX).take m.num_large_crops).map
    (fun x => momOutSpec m cls x t)).map
      (fun o => ((o.cls.map (fun c => proj c)).getD 0))).sum /
        (m.num_large_crops : ℚ)

/-- The explicit output of `BaseMomentumMethod.training_step` on a valid
batch when the momentum classifier `cls` exists. -/
def momentumTrainOutSpec {Img Tgt Feat : Type} (m : MomentumModel Img Tgt Feat)
    (cls : Feat → ℚ) (bX : Sum Img (List Img)) (t : Tgt) :
    MomentumTrainOut Feat :=
  { base := { trainOutSpec m.toModel bX t with
      loss := (trainOutSpec m.toModel bX t).loss +
        momentumAvg m cls bX t (fun c => c.loss) },
    momentum_outs := ((normalizeCrops bX).take m.num_large_crops).map
      (fun x => momOutSpec m cls x t),
    momentum_loss := some (momentumAvg m cls bX t (fun c => c.loss)),
    momentum_acc1 := some (momentumAvg m cls bX t (fun c => c.acc1)),
    momentum_acc5 := some (momentumAvg m cls bX t (fun c => c.acc5)) }

/-- C5: `BaseMomentumMethod.training_step` returns a total loss equal to the
parent (online) aggregated loss plus the momentum-classifier loss averaged
over the large crops when the momentum classifier exists; when it is absent
the parent output is returned unchanged (no momentum scalars). -/
theorem C5_momentum_loss_added_to_total {Img Tgt Feat : Type}
    (m : MomentumModel Img Tgt Feat) (bX : Sum Img (List Img)) (t : Tgt)
    (hlen : (normalizeCrops bX).length = m.toModel.num_crops)
    (hL : 0 < m.num_large_crops) (hcls : 1 ≤ m.num_classes) :
    (m.momentum_classifier = none →
      momentum_training_step m bX t = .ok
        { base := trainOutSpec m.toModel bX t,
          momentum_outs := ((normalizeCrops bX).take m.num_large_crops).map
            (fun x => { feats := m.momentum_backbone x, cls := none }),
          momentum_loss := none, momentum_acc1 := none,
          momentum_acc5 := none }) ∧
    (∀ cls : Feat → ℚ, m.momentum_classifier = some cls → 5 ≤ m.num_classes →
      ∃ r, momentum_training_step m bX t = .ok r ∧
        r.momentum_loss = some ((((normalizeCrops bX).take m.num_large_crops).map
            (fun x => m.cross_entropy
              { cols := m.num_classes, val := cls (m.momentum_backbone x) } t)).sum /
          (m.num_large_crops : ℚ)) ∧
        r.base.loss = (trainOutSpec m.toModel bX t).loss +
          (((normalizeCrops bX).take m.num_large_crops).map
            (fun x => m.cross_entropy
              { cols := m.num_classes, val := cls (m.momentum_backbone x) } t)).sum /
          (m.num_large_crops : ℚ) ∧
        r.base.acc1 = (trainOutSpec m.toModel bX t).acc1 ∧
        r.base.acc5 = (trainOutSpec m.toModel bX t).acc5 ∧
        r.base.feats = (trainOutSpec m.toModel bX t).feats ∧
        training_step m.toModel bX t = .ok (trainOutSpec m.toModel bX t)) := by
  have hp := training_step_spec m.toModel bX t hlen hL hcls
  have htake : ((normalizeCrops bX).take m.num_large_crops).length =
      m.num_large_crops := by
    rw [List.length_take, hlen]
    exact Nat.min_eq_left (Nat.le_add_right _ _)
  constructor
  · intro h
    have hmapm := mapExcept_ok (fun x => shared_step_momentum m x t)
      (fun x => ({ feats := m.momentum_backbone x, cls := none } :
        MomentumStepOut Feat))
      ((normalizeCrops bX).take m.num_large_crops)
      (fun x _ => shared_step_momentum_none m x t h)
    have hne : ((normalizeCrops bX).take m.num_large_crops).map
        (fun x => ({ feats := m.momentum_backbone x, cls := none } :
          MomentumStepOut Feat)) ≠ [] := by
      intro hcnil
      have h0 := congrArg List.length hcnil
      simp only [List.length_map, List.length_nil] at h0
      rw [htake] at h0
      omega
    simp only [momentum_training_step, hp, hmapm, List.isEmpty_eq_true, hne,
      if_false, h]
  · intro cls hc h5
    have hmapm := mapExcept_ok (fun x => shared_step_momentum m x t)
      (fun x => momOutSpec m cls x t)
      ((normalizeCrops bX).take m.num_large_crops)
      (fun x _ => shared_step_momentum_some m x t cls hc h5)
    have hne : ((normalizeCrops bX).take m.num_large_crops).map
        (fun x => momOutSpec m cls x t) ≠ [] := by
      intro hcnil
      have h0 := congrArg List.length hcnil
      simp only [List.length_map, List.length_nil] at h0
      rw [htake] at h0
      omega
    refine ⟨momentumTrainOutSpec m cls bX t, ?_, ?_, ?_, rfl, rfl, rfl, hp⟩
    · simp only [momentum_training_step, hp, hmapm, List.isEmpty_eq_true, hne,
        if_false, hc, momentumTrainOutSpec, momentumAvg]
    · show some (momentumAvg m cls bX t (fun c => c.loss)) = _
      unfold momentumAvg
      rw [List.map_map]
      rfl
    · show (trainOutSpec m.toModel bX t).loss +
        momentumAvg m cls bX t (fun c => c.loss) = _
      unfold momentumAvg
      rw [List.map_map]
      rfl

/-- A momentum method instance with two large crops, per-crop online loss 7
and per-crop momentum-classifier loss 9. -/
def C5Model : MomentumModel Nat Nat Nat :=
  { num_classes := 10, num_large_crops := 2, num_small_crops := 0,
    backbone := fun x => x, classifier := fun _ => 7,
    cross_entropy := fun l _ => l.val, accAt := fun _ _ _ => 1/2,
    momentum_backbone := fun x => x, momentum_classifier := some (fun _ => 9) }

/-- The same instance without a momentum classifier. -/
def C5ModelNone : MomentumModel Nat Nat Nat :=
  { C5Model with momentum_classifier := none }

theorem C5_witness :
    (momentum_training_step C5ModelNone (Sum.inr [3, 3]) 0 = .ok
      { base := trainOutSpec C5ModelNone.toModel (Sum.inr [3, 3]) 0,
        momentum_outs := [{ feats := 3, cls := none }, { feats := 3, cls := none }],
        momentum_loss := none, momentum_acc1 := none, momentum_acc5 := none } ∧
      (trainOutSpec C5ModelNone.toModel (Sum.inr [3, 3]) 0).loss = 7) ∧
    (∃ r, momentum_training_step C5Model (Sum.inr [3, 3]) 0 = .ok r ∧
      r.momentum_loss = some 9 ∧ r.base.loss = 16) := by
  constructor
  · have h := (C5_momentum_loss_added_to_total C5ModelNone (Sum.inr [3, 3]) 0
      (by decide) (by decide) (by decide)).1 rfl
    refine ⟨h, ?_⟩
    show ((7 : ℚ) + ((7 : ℚ) + 0)) / ((2 : ℕ) : ℚ) = 7
    norm_num
  · obtain ⟨r, hok, hml, hloss, _, _, _, _⟩ :=
      (C5_momentum_loss_added_to_total C5Model (Sum.inr [3, 3]) 0
        (by decide) (by decide) (by decide)).2 (fun _ => 9) rfl (by decide)
    refine ⟨r, hok, ?_, ?_⟩
    · rw [hml]
      refine congrArg some ?_
      show ((9 : ℚ) + ((9 : ℚ) + 0)) / ((2 : ℕ) : ℚ) = 9
      norm_num
    · rw [hloss]
      show ((7 : ℚ) + ((7 : ℚ) + 0)) / ((2 : ℕ) : ℚ) +
        ((9 : ℚ) + ((9 : ℚ) + 0)) / ((2 : ℕ) : ℚ) = 16
      norm_num

end SoloLearn
